import Mathlib

/-!
Shallow embedding of the osgEarth `engine_osgterrain` tile-management core:
`src/osgEarth/TerrainOptions.cpp` (LoadingPolicy configuration) and
`src/osgEarthDrivers/engine_osgterrain/CustomTerrain.cpp` (tile table,
task-service registry, neighbor-family refresh, update/cull/event passes).

C++ `float` arithmetic on loading weights and thread multipliers is modelled
by exact rational arithmetic (ℚ); the concrete values appearing in the
claims (small integers, halves) are exactly representable in both.
C++ `unsigned int` subtraction is modelled exactly as arithmetic modulo 2^32.
-/

namespace OsgEarth

/-! ## LoadingPolicy (TerrainOptions.cpp) -/

/-- `LoadingPolicy::Mode` enumeration. -/
inductive LoadingMode where
  | MODE_STANDARD
  | MODE_SEQUENTIAL
  | MODE_PREEMPTIVE
deriving DecidableEq, Repr

open LoadingMode

/-- osgEarth `optional<T>`: a value plus an is-set flag.  `unset()` restores
the default value, so in every state reachable through the class API an unset
optional still holds its default value. -/
structure OptionalV (α : Type) where
  value : α
  isSet : Bool
deriving DecidableEq, Repr

/-- `LoadingPolicy`: the five fields read/written by
`LoadingPolicy::fromConfig` / `LoadingPolicy::getConfig`. -/
structure LoadingPolicy where
  mode : OptionalV LoadingMode
  numLoadingThreads : OptionalV Int
  numLoadingThreadsPerCore : OptionalV ℚ
  numCompileThreads : OptionalV Int
  numCompileThreadsPerCore : OptionalV ℚ
deriving DecidableEq, Repr

/-- The member initializers of the `LoadingPolicy(const Config&)` constructor:
`MODE_STANDARD`, 4 loading threads, 4 loading threads per core,
2 compile threads, 0.5 compile threads per core — all with the
optional's is-set flag false. -/
def LoadingPolicy.defaults : LoadingPolicy :=
  { mode := ⟨MODE_STANDARD, false⟩
  , numLoadingThreads := ⟨4, false⟩
  , numLoadingThreadsPerCore := ⟨4, false⟩
  , numCompileThreads := ⟨2, false⟩
  , numCompileThreadsPerCore := ⟨1/2, false⟩ }

/-- Modelled from the spec: the `Config` class itself is not under `src/`
(only its callers `fromConfig` / `getConfig` are).  A `Config` carries, for
each of the property keys those callers touch, an optional value; per the
spec's error-handling design an absent or non-matching property leaves the
consumer's documented default in place rather than failing. -/
structure Config where
  mode : Option String
  loading_threads : Option Int
  loading_threads_per_logical_processor : Option ℚ
  loading_threads_per_core : Option ℚ
  compile_threads : Option Int
  compile_threads_per_core : Option ℚ
deriving DecidableEq, Repr

/-- A `Config` with no properties set (a fresh `Config("loading_policy")`). -/
def Config.empty : Config := ⟨none, none, none, none, none, none⟩

/-- `LoadingPolicy::fromConfig`, line for line: the three enum-valued
`getIfSet("mode", ...)` calls (each assigns its target constant only when the
`mode` property is present and equals its string), then the five plain
`getIfSet` calls (each overwrites its optional member only when the property
is present; note both `loading_threads_per_logical_processor` and
`loading_threads_per_core` feed `_numLoadingThreadsPerCore`). -/
def LoadingPolicy.fromConfig (p : LoadingPolicy) (conf : Config) : LoadingPolicy :=
  let p := if conf.mode = some "standard" then { p with mode := ⟨MODE_STANDARD, true⟩ } else p
  let p := if conf.mode = some "sequential" then { p with mode := ⟨MODE_SEQUENTIAL, true⟩ } else p
  let p := if conf.mode = some "preemptive" then { p with mode := ⟨MODE_PREEMPTIVE, true⟩ } else p
  let p := match conf.loading_threads with
           | some v => { p with numLoadingThreads := ⟨v, true⟩ }
           | none => p
  let p := match conf.loading_threads_per_logical_processor with
           | some v => { p with numLoadingThreadsPerCore := ⟨v, true⟩ }
           | none => p
  let p := match conf.loading_threads_per_core with
           | some v => { p with numLoadingThreadsPerCore := ⟨v, true⟩ }
           | none => p
  let p := match conf.compile_threads with
           | some v => { p with numCompileThreads := ⟨v, true⟩ }
           | none => p
  match conf.compile_threads_per_core with
  | some v => { p with numCompileThreadsPerCore := ⟨v, true⟩ }
  | none => p

/-- The `LoadingPolicy(const Config&)` constructor: member initializers, then
`fromConfig(conf)`. -/
def LoadingPolicy.ofConfig (conf : Config) : LoadingPolicy :=
  LoadingPolicy.defaults.fromConfig conf

/-- `LoadingPolicy::getConfig`: `addIfSet` emits a property only when the
optional member's is-set flag is true; the enum-valued overload additionally
requires the member to equal its target constant.  The per-core multiplier is
emitted under `loading_threads_per_core` only. -/
def LoadingPolicy.getConfig (p : LoadingPolicy) : Config :=
  let c := Config.empty
  let c := if p.mode.isSet ∧ p.mode.value = MODE_STANDARD then { c with mode := some "standard" } else c
  let c := if p.mode.isSet ∧ p.mode.value = MODE_SEQUENTIAL then { c with mode := some "sequential" } else c
  let c := if p.mode.isSet ∧ p.mode.value = MODE_PREEMPTIVE then { c with mode := some "preemptive" } else c
  let c := if p.numLoadingThreads.isSet then { c with loading_threads := some p.numLoadingThreads.value } else c
  let c := if p.numLoadingThreadsPerCore.isSet then { c with loading_threads_per_core := some p.numLoadingThreadsPerCore.value } else c
  let c := if p.numCompileThreads.isSet then { c with compile_threads := some p.numCompileThreads.value } else c
  if p.numCompileThreadsPerCore.isSet then { c with compile_threads_per_core := some p.numCompileThreadsPerCore.value } else c

/-- States of `LoadingPolicy` reachable through the osgEarth `optional<T>`
API: an unset optional holds its default value. -/
def LoadingPolicy.wellFormed (p : LoadingPolicy) : Prop :=
  (p.mode.isSet = false → p.mode.value = MODE_STANDARD) ∧
  (p.numLoadingThreads.isSet = false → p.numLoadingThreads.value = 4) ∧
  (p.numLoadingThreadsPerCore.isSet = false → p.numLoadingThreadsPerCore.value = 4) ∧
  (p.numCompileThreads.isSet = false → p.numCompileThreads.value = 2) ∧
  (p.numCompileThreadsPerCore.isSet = false → p.numCompileThreadsPerCore.value = 1/2)

/-! ## Task services and the registry (CustomTerrain.cpp) -/

/-- `osg::maximum` on ints: `l > r ? l : r`. -/
def osgMaximumI (l r : Int) : Int := if l > r then l else r

/-- `osg::maximum` on floats (modelled by ℚ): `l > r ? l : r`. -/
def osgMaximumQ (l r : ℚ) : ℚ := if l > r then l else r

/-- `osg::round` on a nonnegative float is `floorf(v + 0.5f)`; on a negative
one, `ceilf(v - 0.5f)` (modelled by ℚ, result already integral so the
subsequent `(int)` cast is exact). -/
def osgRound (v : ℚ) : Int := if 0 ≤ v then ⌊v + 1/2⌋ else ⌈v - 1/2⌉

/-- The fields of a `TaskService` that the code under `src/` reads or writes:
constructor arguments `name` and `numThreads`, the frame `stamp` set by the
update pass, and the pending-request count read by `getNumTasksRemaining`.
A fresh `new TaskService(name, numThreads)` starts with no pending requests
and stamp 0. -/
structure TaskService where
  name : String
  numThreads : Int
  stamp : Int
  numRequests : Nat
deriving DecidableEq, Repr

/-- Modelled from the spec: `TaskService::setNumThreads` is not under `src/`.
Spec §4.1: "`setThreadCount(n)` dynamically resizes the worker pool (n ≥ 0;
0 pauses processing without discarding queued work)" — so the requested
count is stored as given, with no implicit floor. -/
def TaskService.setNumThreads (s : TaskService) (n : Int) : TaskService :=
  { s with numThreads := n }

/-- `TaskService::setStamp`. -/
def TaskService.setStamp (s : TaskService) (st : Int) : TaskService :=
  { s with stamp := st }

/-- `TaskServiceMap` (`std::map<int, ref_ptr<TaskService>>`), modelled as an
association list with unique keys (`std::map` keys are unique); insertion
position is irrelevant to lookups when the key is absent. -/
def TaskServiceMap : Type := List (Int × TaskService)

/-- The number of registry entries carrying a given service id. -/
def countId (m : TaskServiceMap) (id : Int) : Nat :=
  (m.filter (fun p => p.1 == id)).length

/-- `CustomTerrain::getTaskService(id)`: locked lookup, `NULL` if absent. -/
def getTaskService (m : TaskServiceMap) (id : Int) : Option TaskService :=
  List.lookup id m

/-- `CustomTerrain::createTaskService(name, id, numThreads)`: under the
registry mutex, first re-check for an existing service for `id` and return
it; otherwise create a new one, insert it, and return it. -/
def createTaskService (m : TaskServiceMap) (name : String) (id : Int)
    (numThreads : Int) : TaskServiceMap × TaskService :=
  match List.lookup id m with
  | some s => (m, s)
  | none =>
      let service : TaskService := ⟨name, numThreads, 0, 0⟩
      ((id, service) :: m, service)

def ELEVATION_TASK_SERVICE_ID : Int := 9999
def TILE_GENERATION_TASK_SERVICE_ID : Int := 10000

/-- `CustomTerrain::getElevationTaskService`: get, else create with 1 thread. -/
def getElevationTaskService (m : TaskServiceMap) : TaskServiceMap × TaskService :=
  match getTaskService m ELEVATION_TASK_SERVICE_ID with
  | some s => (m, s)
  | none => createTaskService m "elevation" ELEVATION_TASK_SERVICE_ID 1

/-- `CustomTerrain::getImageryTaskService(layerId)`: get, else create
(named "layer <id>") with 1 thread. -/
def getImageryTaskService (m : TaskServiceMap) (layerId : Int) :
    TaskServiceMap × TaskService :=
  match getTaskService m layerId with
  | some s => (m, s)
  | none => createTaskService m ("layer " ++ toString layerId) layerId 1

/-- `CustomTerrain::getNumTasksRemaining`: sum of `getNumRequests()` over all
registered task services. -/
def getNumTasksRemaining (m : TaskServiceMap) : Nat :=
  m.foldl (fun total p => total + p.2.numRequests) 0

/-! ## Constructor thread-count selection (CustomTerrain::CustomTerrain) -/

/-- The `_numLoadingThreads` value established by the `CustomTerrain`
constructor: member-initialized to 0; when the loading mode is not
`MODE_STANDARD`, set from (in order of precedence) the
`OSGEARTH_NUM_PREEMPTIVE_LOADING_THREADS` environment variable's `atoi`
value, else `osg::maximum(1, numLoadingThreads)` when that option is set,
else `(int)osg::maximum(1.0f, numLoadingThreadsPerCore * numProcessors)`
(the cast truncates, and the value is ≥ 1, so it is the floor). -/
def customTerrainNumLoadingThreads (policy : LoadingPolicy)
    (envNumTaskServiceThreads : Option Int) (numProcessors : Nat) : Int :=
  let numLoadingThreads : Int := 0
  if policy.mode.value ≠ LoadingMode.MODE_STANDARD then
    match envNumTaskServiceThreads with
    | some v => v
    | none =>
        if policy.numLoadingThreads.isSet then
          osgMaximumI 1 policy.numLoadingThreads.value
        else
          ⌊osgMaximumQ 1 (policy.numLoadingThreadsPerCore.value * (numProcessors : ℚ))⌋
  else
    numLoadingThreads

/-! ## Event traversal: the on-demand redraw governor -/

/-- The constructor member initializer `_onDemandDelay(2)`. -/
def initOnDemandDelay : Nat := 2

/-- The `EVENT_VISITOR` branch of `CustomTerrain::traverse`: when the
aggregate task count is positive, reset `_onDemandDelay` to 2; then if the
delay is positive, request a redraw and decrement it.  Returns
(redraw requested?, new delay).  `_onDemandDelay` is a C++ `int` but every
reachable value is 0, 1 or 2, so ℕ models it exactly. -/
def eventTraversal (numTasks : Nat) (onDemandDelay : Nat) : Bool × Nat :=
  let d := if numTasks > 0 then 2 else onDemandDelay
  if d > 0 then (true, d - 1) else (false, d)

/-! ## Rebalancing (CustomTerrain::updateTaskServiceThreads) -/

/-- The elevation weight computed by `updateTaskServiceThreads`: running
maximum (starting at 0) of the elevation layers' loading weights. -/
def elevationWeightOf (elevWeights : List ℚ) : ℚ :=
  elevWeights.foldl (fun acc w => if w > acc then w else acc) 0

/-- The thread counts `updateTaskServiceThreads` passes to `setNumThreads`:
`totalWeight` is the elevation weight plus the sum of the imagery weights;
the elevation service is resized to `(int)osg::round(B * ew/totalWeight)`
only when the elevation weight is positive, and each imagery service to
`(int)osg::round(B * w/totalWeight)`. -/
def updateTaskServiceThreads (numLoadingThreads : Int) (elevWeights : List ℚ)
    (imageWeights : List ℚ) : Option Int × List Int :=
  let elevationWeight := elevationWeightOf elevWeights
  let totalImageWeight := imageWeights.foldl (· + ·) 0
  let totalWeight := elevationWeight + totalImageWeight
  let elev :=
    if elevationWeight > 0 then
      some (osgRound ((numLoadingThreads : ℚ) * (elevationWeight / totalWeight)))
    else none
  let imgs := imageWeights.map
    (fun w => osgRound ((numLoadingThreads : ℚ) * (w / totalWeight)))
  (elev, imgs)

/-- Store a new thread count on the service registered under `id`
(`getXxxTaskService(id)->setNumThreads(n)` mutates the mapped service). -/
def mapSetNumThreads (m : TaskServiceMap) (id : Int) (n : Int) : TaskServiceMap :=
  m.map (fun p => if p.1 = id then (p.1, p.2.setNumThreads n) else p)

/-- `CustomTerrain::updateTaskServiceThreads` acting on the registry:
get-or-create each service, then resize it per `updateTaskServiceThreads`.
Imagery layers are given as (unique layer id, loading weight) pairs. -/
def applyRebalance (m : TaskServiceMap) (numLoadingThreads : Int)
    (elevWeights : List ℚ) (imageLayers : List (Int × ℚ)) : TaskServiceMap :=
  let elevationWeight := elevationWeightOf elevWeights
  let totalWeight := elevationWeight + (imageLayers.map Prod.snd).foldl (· + ·) 0
  let m :=
    if elevationWeight > 0 then
      mapSetNumThreads (getElevationTaskService m).1 ELEVATION_TASK_SERVICE_ID
        (osgRound ((numLoadingThreads : ℚ) * (elevationWeight / totalWeight)))
    else m
  imageLayers.foldl
    (fun acc l =>
      mapSetNumThreads (getImageryTaskService acc l.1).1 l.1
        (osgRound ((numLoadingThreads : ℚ) * (l.2 / totalWeight))))
    m

/-! ## Tile keys, tiles, and the neighbor family (CustomTerrain::refreshFamily) -/

/-- `TileKey`: quadtree address (level of detail, x, y); the coordinates are
C++ `unsigned int`s, modelled as ℕ. -/
structure TileKey where
  lod : Nat
  x : Nat
  y : Nat
deriving DecidableEq, Repr

/-- 2^32, the modulus of C++ `unsigned int` arithmetic. -/
def UINT_MOD : Nat := 2 ^ 32

/-- C++ `unsigned int` subtraction `a - b` (for `b ≤ 2^32`):
`(a + 2^32 - b) mod 2^32`. -/
def usub (a b : Nat) : Nat := (a + (UINT_MOD - b)) % UINT_MOD

/-- Modelled from the spec: `TileKey::createParentKey` lives in the external
tile-addressing capability ("given an address, compute the parent address"),
not under `src/`: one level up, coordinates halved. -/
def TileKey.createParentKey (k : TileKey) : TileKey :=
  ⟨k.lod - 1, k.x / 2, k.y / 2⟩

/-- The four cardinal neighbor directions of `TileKey::createNeighborKey`. -/
inductive NeighborDir where
  | WEST
  | NORTH
  | EAST
  | SOUTH
deriving DecidableEq, Repr

/-- Modelled from the spec: `TileKey::createNeighborKey` is the external
"wraparound-aware addressing" capability, not under `src/`.  Same level;
WEST/EAST step x down/up wrapping across the row of `tileCountX` tiles,
NORTH/SOUTH step y up/down wrapping across the column of `tileCountY` tiles
(matching the addressing spelled out in the engine's own comments). -/
def TileKey.createNeighborKey (k : TileKey) (d : NeighborDir)
    (tileCountX tileCountY : Nat) : TileKey :=
  match d with
  | .WEST => ⟨k.lod, if k.x > 0 then k.x - 1 else tileCountX - 1, k.y⟩
  | .NORTH => ⟨k.lod, k.x, if k.y < tileCountY - 1 then k.y + 1 else 0⟩
  | .EAST => ⟨k.lod, if k.x < tileCountX - 1 then k.x + 1 else 0, k.y⟩
  | .SOUTH => ⟨k.lod, k.x, if k.y > 0 then k.y - 1 else tileCountY - 1⟩

/-- A `Relative` snapshot: whether the neighbor is topologically expected,
its last observed elevation LOD (−1 sentinel), the per-imagery-layer LOD map
(layer UID → LOD, in color-layer order), and the neighbor's key. -/
structure Relative where
  expected : Bool
  elevLOD : Int
  imageLODs : List (Int × Int)
  key : TileKey
deriving DecidableEq, Repr

/-- The `Family` array of 5 `Relative` entries, one per direction. -/
structure Family where
  parent : Relative
  west : Relative
  north : Relative
  east : Relative
  south : Relative
deriving DecidableEq, Repr

/-- The state of a `CustomTile` read by the `CustomTerrain` code under
`src/`: its key, elevation LOD, color layers (each `some (uid, lod)` when the
`dynamic_cast<TransparentLayer*>` succeeds, `none` otherwise), the reference
count and has-been-traversed flag examined by retirement marking, the
(pass-fixed) boolean result of `cancelRequests()`, and the
`getUseLayerRequests()` flag. -/
structure CustomTile where
  key : TileKey
  elevationLOD : Int
  colorLayers : List (Option (Int × Int))
  refCount : Nat
  hasBeenTraversed : Bool
  cancelOk : Bool
  useLayerRequests : Bool
deriving DecidableEq, Repr

/-- `CustomTerrain::getCustomTile`: lookup in the live tile table (modelled
as a list with unique keys). -/
def lookupTile (tiles : List CustomTile) (k : TileKey) : Option CustomTile :=
  tiles.find? (fun t => decide (t.key = k))

/-- One `Relative` block of `refreshFamily`: record the expected flag and
key, reset `elevLOD` to −1 and clear `imageLODs`, then, when the neighbor is
present in the table, copy its elevation LOD and the (uid, lod) of each
color layer that casts to `TransparentLayer`. -/
def refreshRelative (tiles : List CustomTile) (expected : Bool) (k : TileKey) :
    Relative :=
  match lookupTile tiles k with
  | some t => ⟨expected, t.elevationLOD, t.colorLayers.filterMap id, k⟩
  | none => ⟨expected, -1, [], k⟩

/-- The map information `refreshFamily` consults: `MapInfo::isGeocentric`
(geocentric maps wrap around in x) and `Profile::getNumTiles` per level. -/
structure MapInfoModel where
  isGeocentric : Bool
  numTilesX : Nat → Nat
  numTilesY : Nat → Nat

/-- `CustomTerrain::refreshFamily`: recompute the 5-entry neighbor family of
`key` against the given tile table.  `expected` flags exactly as in the
source (`tileCountX`, `tileCountY` are `unsigned int`, so `tileCount - 1`
is modulo-2^32 subtraction): PARENT always true; WEST `x > 0 || wrapX`;
NORTH `y < tileCountY-1`; EAST `x < tileCountX-1 || wrapX`; SOUTH `y > 0`. -/
def refreshFamily (mi : MapInfoModel) (key : TileKey)
    (tiles : List CustomTile) : Family :=
  let wrapX := mi.isGeocentric
  let tileCountX := mi.numTilesX key.lod
  let tileCountY := mi.numTilesY key.lod
  { parent := refreshRelative tiles true key.createParentKey
  , west := refreshRelative tiles (decide (key.x > 0) || wrapX)
      (key.createNeighborKey .WEST tileCountX tileCountY)
  , north := refreshRelative tiles (decide (key.y < usub tileCountY 1))
      (key.createNeighborKey .NORTH tileCountX tileCountY)
  , east := refreshRelative tiles (decide (key.x < usub tileCountX 1) || wrapX)
      (key.createNeighborKey .EAST tileCountX tileCountY)
  , south := refreshRelative tiles (decide (key.y > 0))
      (key.createNeighborKey .SOUTH tileCountX tileCountY) }

/-! ## The update pass (UPDATE_VISITOR branch of CustomTerrain::traverse) -/

/-- The `CustomTerrain` state threaded through one update pass. -/
structure TerrainState where
  tiles : List CustomTile
  tilesToShutDown : List CustomTile
  tilesToRelease : List CustomTile
  quickReleaseGLObjects : Bool
  quickReleaseCallbackInstalled : Bool
  taskServices : TaskServiceMap

/-- The retirement-candidate predicate of the update pass:
`tile->referenceCount() == 1 && tile->getHasBeenTraversed()`. -/
def isDeadTile (t : CustomTile) : Bool :=
  t.refCount == 1 && t.hasBeenTraversed

/-- The shutdown-queue drain loop, exactly as in the source: for each queued
tile whose `cancelRequests()` returns true, push it onto the release queue
when quick release is on and the callback installed, erase its key from the
tile table, and drop it from the queue; otherwise keep it queued.  Returns
(remaining queue, tile table, release queue). -/
def drainShutdown (quickRelease installed : Bool) :
    List CustomTile → List CustomTile → List CustomTile →
    List CustomTile × List CustomTile × List CustomTile
  | [], tiles, toRelease => ([], tiles, toRelease)
  | t :: rest, tiles, toRelease =>
      if t.cancelOk then
        let toRelease' := if quickRelease && installed then toRelease ++ [t] else toRelease
        let tiles' := tiles.filter (fun u => !(decide (u.key = t.key)))
        drainShutdown quickRelease installed rest tiles' toRelease'
      else
        let (q, tiles', rel') := drainShutdown quickRelease installed rest tiles toRelease
        (t :: q, tiles', rel')

/-- Propagating the frame stamp to every registered task service. -/
def setStampAll (m : TaskServiceMap) (stamp : Int) : TaskServiceMap :=
  m.map (fun p => (p.1, p.2.setStamp stamp))

/-- The full `UPDATE_VISITOR` branch of `CustomTerrain::traverse`:
install the quick-release callback if needed; snapshot the tile table;
move dead tiles (refcount 1, traversed) from the snapshot to the shutdown
queue; drain the shutdown queue under the write lock; stamp the task
services; then refresh the family of every tile remaining in the snapshot
against the post-drain table.  Returns the new state and the list of
(tile, recomputed family) processed in the final phase. -/
def updateTraversal (mi : MapInfoModel) (cameraPresent : Bool)
    (st : TerrainState) (stamp : Int) :
    TerrainState × List (CustomTile × Family) :=
  let installed :=
    if st.quickReleaseGLObjects && !st.quickReleaseCallbackInstalled then
      (if cameraPresent then true else st.quickReleaseCallbackInstalled)
    else st.quickReleaseCallbackInstalled
  let snapshot := st.tiles
  let dead := snapshot.filter isDeadTile
  let live := snapshot.filter (fun t => !isDeadTile t)
  let shutdownQueue := st.tilesToShutDown ++ dead
  let drained :=
    drainShutdown st.quickReleaseGLObjects installed shutdownQueue st.tiles st.tilesToRelease
  let servicesAfter := setStampAll st.taskServices stamp
  let refreshed := live.map (fun t => (t, refreshFamily mi t.key drained.2.1))
  ({ tiles := drained.2.1
   , tilesToShutDown := drained.1
   , tilesToRelease := drained.2.2
   , quickReleaseGLObjects := st.quickReleaseGLObjects
   , quickReleaseCallbackInstalled := installed
   , taskServices := servicesAfter }, refreshed)

/-! Phase-decomposed form of the update pass, for the ordering claim. -/

/-- Phase 0: quick-release callback installation. -/
def installCallbackPhase (cameraPresent : Bool) (st : TerrainState) : TerrainState :=
  { st with quickReleaseCallbackInstalled :=
      if st.quickReleaseGLObjects && !st.quickReleaseCallbackInstalled then
        (if cameraPresent then true else st.quickReleaseCallbackInstalled)
      else st.quickReleaseCallbackInstalled }

/-- Phase 1: retirement-candidate marking; returns the updated state and the
surviving snapshot. -/
def markRetirementCandidates (st : TerrainState) : TerrainState × List CustomTile :=
  ({ st with tilesToShutDown := st.tilesToShutDown ++ st.tiles.filter isDeadTile },
   st.tiles.filter (fun t => !isDeadTile t))

/-- Phase 2: the shutdown-queue drain attempt. -/
def drainShutdownPhase (st : TerrainState) : TerrainState :=
  let drained := drainShutdown st.quickReleaseGLObjects
    st.quickReleaseCallbackInstalled st.tilesToShutDown st.tiles st.tilesToRelease
  { st with
    tiles := drained.2.1
    tilesToShutDown := drained.1
    tilesToRelease := drained.2.2 }

/-- Phase 3: frame-stamp propagation to every task service. -/
def stampPhase (st : TerrainState) (stamp : Int) : TerrainState :=
  { st with taskServices := setStampAll st.taskServices stamp }

/-- Phase 4: neighbor-family refresh of the surviving snapshot against the
current (post-drain) tile table. -/
def refreshPhase (mi : MapInfoModel) (st : TerrainState)
    (live : List CustomTile) : List (CustomTile × Family) :=
  live.map (fun t => (t, refreshFamily mi t.key st.tiles))

/-! ## Helper lemmas -/

theorem usub_one (c : Nat) (h1 : 1 ≤ c) (h2 : c ≤ UINT_MOD) : usub c 1 = c - 1 := by
  unfold usub
  unfold UINT_MOD at h2 ⊢
  omega

theorem refreshRelative_expected (tiles : List CustomTile) (e : Bool) (k : TileKey) :
    (refreshRelative tiles e k).expected = e := by
  unfold refreshRelative
  cases lookupTile tiles k <;> rfl

theorem osgMaximumI_eq_max (l r : Int) : osgMaximumI l r = max l r := by
  unfold osgMaximumI
  rw [max_def]
  split <;> split <;> omega

theorem osgMaximumQ_eq_max (l r : ℚ) : osgMaximumQ l r = max l r := by
  unfold osgMaximumQ
  rw [max_def]
  split <;> split <;> linarith

theorem foldl_add_numRequests (m : TaskServiceMap) (acc : Nat) :
    m.foldl (fun total p => total + p.2.numRequests) acc
      = acc + (m.map (fun p => p.2.numRequests)).sum := by
  induction m generalizing acc with
  | nil => simp
  | cons p rest ih => simp [List.foldl_cons, ih, Nat.add_assoc]

theorem lookup_cons_eq {β : Type} (id k : Int) (v : β) (rest : List (Int × β)) :
    List.lookup id ((k, v) :: rest) = if id = k then some v else List.lookup id rest := by
  rw [List.lookup_cons]
  by_cases h : id = k
  · simp [h]
  · simp [h, beq_false_of_ne h]

theorem countId_cons (k : Int) (v : TaskService) (rest : TaskServiceMap) (id : Int) :
    countId ((k, v) :: rest) id = (if k = id then 1 else 0) + countId rest id := by
  by_cases h : k = id
  · simp [countId, List.filter_cons, h, Nat.add_comm]
  · simp [countId, List.filter_cons, h]

theorem lookup_none_countId (m : TaskServiceMap) (id : Int)
    (h : List.lookup id m = none) : countId m id = 0 := by
  induction m with
  | nil => rfl
  | cons p rest ih =>
    obtain ⟨k, v⟩ := p
    rw [lookup_cons_eq] at h
    by_cases hk : id = k
    · simp [hk] at h
    · rw [if_neg hk] at h
      rw [countId_cons, if_neg (Ne.symm hk), ih h]

theorem lookup_none_not_mem (m : TaskServiceMap) (id : Int)
    (h : List.lookup id m = none) : id ∉ m.map Prod.fst := by
  induction m with
  | nil => simp
  | cons p rest ih =>
    obtain ⟨k, v⟩ := p
    rw [lookup_cons_eq] at h
    by_cases hk : id = k
    · simp [hk] at h
    · rw [if_neg hk] at h
      simp [hk, ih h]

theorem mem_keys_of_lookup_some (m : TaskServiceMap) (id : Int) (s : TaskService)
    (h : List.lookup id m = some s) : id ∈ m.map Prod.fst := by
  induction m with
  | nil => simp at h
  | cons p rest ih =>
    obtain ⟨k, v⟩ := p
    rw [lookup_cons_eq] at h
    by_cases hk : id = k
    · simp [hk]
    · rw [if_neg hk] at h
      simp [ih h]

theorem lookup_some_countId (m : TaskServiceMap) (id : Int) (s : TaskService)
    (hnd : (m.map Prod.fst).Nodup) (h : List.lookup id m = some s) :
    countId m id = 1 := by
  induction m with
  | nil => simp at h
  | cons p rest ih =>
    obtain ⟨k, v⟩ := p
    simp only [List.map_cons, List.nodup_cons] at hnd
    rw [lookup_cons_eq] at h
    by_cases hk : id = k
    · subst hk
      have hrest : List.lookup id rest = none := by
        cases hr : List.lookup id rest with
        | none => rfl
        | some w => exact absurd (mem_keys_of_lookup_some rest id w hr) hnd.1
      rw [countId_cons, if_pos rfl, lookup_none_countId rest id hrest]
    · rw [if_neg hk] at h
      rw [countId_cons, if_neg (Ne.symm hk), ih hnd.2 h]

theorem osgRound_le_half (x : ℚ) (hx : 0 ≤ x) : (osgRound x : ℚ) ≤ x + 1/2 := by
  unfold osgRound
  rw [if_pos hx]
  exact Int.floor_le _

theorem foldl_add_eq_sum (l : List ℚ) (acc : ℚ) : l.foldl (· + ·) acc = acc + l.sum := by
  induction l generalizing acc with
  | nil => simp
  | cons x rest ih => simp [List.foldl_cons, ih, add_assoc]

theorem elevationWeightOf_nonneg (l : List ℚ) : 0 ≤ elevationWeightOf l := by
  suffices h : ∀ a : ℚ, 0 ≤ a → 0 ≤ l.foldl (fun acc w => if w > acc then w else acc) a from
    h 0 le_rfl
  induction l with
  | nil => intro a ha; exact ha
  | cons x rest ih =>
    intro a ha
    simp only [List.foldl_cons]
    apply ih
    split
    · linarith
    · exact ha

theorem sum_osgRound_le (xs : List ℚ) (h : ∀ x ∈ xs, 0 ≤ x) :
    (((xs.map osgRound).sum : Int) : ℚ) ≤ xs.sum + xs.length / 2 := by
  induction xs with
  | nil => simp
  | cons x rest ih =>
    simp only [List.map_cons, List.sum_cons, List.length_cons]
    have hx := osgRound_le_half x (h x (by simp))
    have hr := ih (fun y hy => h y (by simp [hy]))
    push_cast
    push_cast at hr
    linarith

/-! ## Claims -/

/-- C1: after `refreshFamily`, the neighbor `expected` flags satisfy:
WEST expected iff the tile's x > 0 or the profile wraps horizontally
(geocentric); EAST expected iff x < tileCountX−1 or the profile wraps;
NORTH expected iff y < tileCountY−1 (not expected at maximum y);
SOUTH expected iff y > 0 (not expected at y = 0); PARENT always expected.
(The tile counts are C++ `unsigned int`s; any real profile has at least one
tile per axis and the counts fit in 32 bits.) -/
theorem refreshFamily_expected_flags (mi : MapInfoModel) (key : TileKey)
    (tiles : List CustomTile)
    (hx1 : 1 ≤ mi.numTilesX key.lod) (hx2 : mi.numTilesX key.lod ≤ UINT_MOD)
    (hy1 : 1 ≤ mi.numTilesY key.lod) (hy2 : mi.numTilesY key.lod ≤ UINT_MOD) :
    ((refreshFamily mi key tiles).west.expected = true ↔
       (0 < key.x ∨ mi.isGeocentric = true)) ∧
    ((refreshFamily mi key tiles).east.expected = true ↔
       (key.x < mi.numTilesX key.lod - 1 ∨ mi.isGeocentric = true)) ∧
    ((refreshFamily mi key tiles).north.expected = true ↔
       key.y < mi.numTilesY key.lod - 1) ∧
    ((refreshFamily mi key tiles).south.expected = true ↔ 0 < key.y) ∧
    (refreshFamily mi key tiles).parent.expected = true := by
  simp only [refreshFamily, refreshRelative_expected, usub_one _ hx1 hx2,
    usub_one _ hy1 hy2, Bool.or_eq_true, decide_eq_true_eq]
  tauto

/-- Witness for C1: the spec's end-to-end scenario — level 2, (x=0, y=0), a
wrapping (geocentric) profile with 4×4 tiles at that level: WEST is expected
(wraparound), EAST expected, NORTH expected, SOUTH not expected, PARENT
expected. -/
theorem refreshFamily_expected_flags_witness :
    ((1 ≤ (4:Nat) ∧ (4:Nat) ≤ UINT_MOD) ∧
     ((refreshFamily ⟨true, fun _ => 4, fun _ => 4⟩ ⟨2, 0, 0⟩ []).west.expected = true ↔
        (0 < (0:Nat) ∨ true = true)) ∧
     ((refreshFamily ⟨true, fun _ => 4, fun _ => 4⟩ ⟨2, 0, 0⟩ []).east.expected = true ↔
        ((0:Nat) < 4 - 1 ∨ true = true)) ∧
     ((refreshFamily ⟨true, fun _ => 4, fun _ => 4⟩ ⟨2, 0, 0⟩ []).north.expected = true ↔
        (0:Nat) < 4 - 1) ∧
     ((refreshFamily ⟨true, fun _ => 4, fun _ => 4⟩ ⟨2, 0, 0⟩ []).south.expected = true ↔
        0 < (0:Nat)) ∧
     (refreshFamily ⟨true, fun _ => 4, fun _ => 4⟩ ⟨2, 0, 0⟩ []).parent.expected = true) :=
  ⟨⟨by decide, by decide⟩,
   refreshFamily_expected_flags ⟨true, fun _ => 4, fun _ => 4⟩ ⟨2, 0, 0⟩ []
     (by decide) (by decide) (by decide) (by decide)⟩

/-- C6: in every event pass, a nonzero aggregate task count resets the
on-demand delay counter to 2; whenever the counter is positive a redraw is
requested and the counter decrements; hence after the last pass that still
sees outstanding tasks, a redraw is requested for exactly one further
(task-free) pass and the pass after that requests none.  The counter starts
at 2 (constructor initializer). -/
theorem eventTraversal_redraw_governor (numTasks d : Nat) (h : 0 < numTasks) :
    eventTraversal numTasks d = (true, 1) ∧
    eventTraversal 0 1 = (true, 0) ∧
    eventTraversal 0 0 = (false, 0) ∧
    (∀ d', 0 < d' → eventTraversal 0 d' = (true, d' - 1)) ∧
    initOnDemandDelay = 2 := by
  unfold eventTraversal initOnDemandDelay
  refine ⟨by simp [h], by simp, by simp, ?_, rfl⟩
  intro d' hd'
  simp [hd']

/-- Witness for C6: a pass with 5 outstanding tasks from delay 0. -/
theorem eventTraversal_redraw_governor_witness :
    0 < 5 ∧ eventTraversal 5 0 = (true, 1) :=
  ⟨by decide, (eventTraversal_redraw_governor 5 0 (by decide)).1⟩

/-- C7: `getNumTasksRemaining` is exactly the sum over all registered task
services of their pending-request counts; it is 0 on the empty registry, and
5 when one service has 5 pending requests and the others none. -/
theorem getNumTasksRemaining_spec (m : TaskServiceMap) :
    getNumTasksRemaining m = (m.map (fun p => p.2.numRequests)).sum ∧
    getNumTasksRemaining ([] : TaskServiceMap) = 0 ∧
    getNumTasksRemaining
      [(42, ⟨"layer 42", 1, 0, 5⟩), (ELEVATION_TASK_SERVICE_ID, ⟨"elevation", 1, 0, 0⟩)] = 5 := by
  refine ⟨?_, rfl, rfl⟩
  simpa using foldl_add_numRequests m 0

/-- C8: the constructor's loading-thread count: in non-standard mode the
environment override (when present) wins outright; else a set configured
count is clamped below by 1; else the per-core multiplier times the
processor count, clamped below by 1 (and truncated to an integer); in
standard mode the count stays 0. -/
theorem customTerrain_loading_threads_precedence (policy : LoadingPolicy)
    (env : Option Int) (procs : Nat) :
    (policy.mode.value = LoadingMode.MODE_STANDARD →
       customTerrainNumLoadingThreads policy env procs = 0) ∧
    (policy.mode.value ≠ LoadingMode.MODE_STANDARD →
       (∀ v, env = some v → customTerrainNumLoadingThreads policy env procs = v) ∧
       (env = none → policy.numLoadingThreads.isSet = true →
          customTerrainNumLoadingThreads policy env procs
            = max 1 policy.numLoadingThreads.value) ∧
       (env = none → policy.numLoadingThreads.isSet = false →
          customTerrainNumLoadingThreads policy env procs
            = ⌊max 1 (policy.numLoadingThreadsPerCore.value * (procs : ℚ))⌋)) := by
  unfold customTerrainNumLoadingThreads
  constructor
  · intro hstd
    simp [hstd]
  · intro hne
    refine ⟨?_, ?_, ?_⟩
    · intro v hv
      subst hv
      simp [hne]
    · intro henv hset
      subst henv
      simp [hne, hset, osgMaximumI_eq_max]
    · intro henv hset
      subst henv
      simp [hne, hset, osgMaximumQ_eq_max]

/-- Witness for C8: sequential mode with the environment override set to 7 on
a policy whose configured count is also set — the override wins. -/
theorem customTerrain_loading_threads_precedence_witness :
    ((⟨⟨LoadingMode.MODE_SEQUENTIAL, true⟩, ⟨4, true⟩, ⟨4, true⟩, ⟨2, true⟩, ⟨4, true⟩⟩ :
        LoadingPolicy).mode.value ≠ LoadingMode.MODE_STANDARD) ∧
    customTerrainNumLoadingThreads
      ⟨⟨LoadingMode.MODE_SEQUENTIAL, true⟩, ⟨4, true⟩, ⟨4, true⟩, ⟨2, true⟩, ⟨4, true⟩⟩
      (some 7) 4 = 7 :=
  ⟨by decide,
   ((customTerrain_loading_threads_precedence
       ⟨⟨LoadingMode.MODE_SEQUENTIAL, true⟩, ⟨4, true⟩, ⟨4, true⟩, ⟨2, true⟩, ⟨4, true⟩⟩
       (some 7) 4).2 (by decide)).1 7 rfl⟩

/-- C5: `createTaskService` re-checks the registry and returns the
already-present service for `id` if one exists, creating and inserting only
otherwise; afterwards exactly one service exists for `id`, the registry's
key set stays duplicate-free, and any later get-or-create for the same id —
`createTaskService` with a different name/thread count, or
`getImageryTaskService` — returns the existing instance and leaves the
registry unchanged. -/
theorem createTaskService_unique (m : TaskServiceMap) (name : String)
    (id numThreads : Int) (hnd : (m.map Prod.fst).Nodup) :
    ((createTaskService m name id numThreads).1.map Prod.fst).Nodup ∧
    List.lookup id (createTaskService m name id numThreads).1
      = some (createTaskService m name id numThreads).2 ∧
    countId (createTaskService m name id numThreads).1 id = 1 ∧
    (∀ s, List.lookup id m = some s →
        createTaskService m name id numThreads = (m, s)) ∧
    (∀ name' n', createTaskService (createTaskService m name id numThreads).1 name' id n'
        = ((createTaskService m name id numThreads).1,
           (createTaskService m name id numThreads).2)) ∧
    getImageryTaskService (createTaskService m name id numThreads).1 id
      = ((createTaskService m name id numThreads).1,
         (createTaskService m name id numThreads).2) := by
  cases hl : List.lookup id m with
  | none =>
    refine ⟨?_, ?_, ?_, ?_, ?_, ?_⟩
    · simp [createTaskService, hl, List.nodup_cons, lookup_none_not_mem m id hl, hnd]
    · simp [createTaskService, hl, lookup_cons_eq]
    · simp [createTaskService, hl, countId_cons, lookup_none_countId m id hl]
    · intro s hs
      exact Option.noConfusion hs
    · intro name' n'
      simp [createTaskService, hl, lookup_cons_eq]
    · simp [getImageryTaskService, getTaskService, createTaskService, hl, lookup_cons_eq]
  | some s =>
    refine ⟨?_, ?_, ?_, ?_, ?_, ?_⟩
    · simpa [createTaskService, hl] using hnd
    · simp [createTaskService, hl]
    · simpa [createTaskService, hl] using lookup_some_countId m id s hnd hl
    · intro s' hs'
      injection hs' with h
      simp [createTaskService, hl, h]
    · intro name' n'
      simp [createTaskService, hl]
    · simp [getImageryTaskService, getTaskService, createTaskService, hl]

/-- Witness for C5: get-or-create of imagery layer id 42 on an empty
registry yields exactly one service with id 42. -/
theorem createTaskService_unique_witness :
    ((([] : TaskServiceMap).map Prod.fst).Nodup) ∧
    countId (createTaskService [] "layer 42" 42 1).1 42 = 1 :=
  ⟨by simp, (createTaskService_unique [] "layer 42" 42 1 (by simp)).2.2.1⟩

/-- C9: constructing a `LoadingPolicy` from a configuration whose mode
string is absent or not one of "standard"/"sequential"/"preemptive" leaves
the mode at the default `MODE_STANDARD` (no failure), and every unset field
keeps its documented default: 4 loading threads, 4 loading threads per core,
2 compile threads, 0.5 compile threads per core. -/
theorem loadingPolicy_fromConfig_defaults (conf : Config)
    (hmode : ∀ s, conf.mode = some s →
       s ≠ "standard" ∧ s ≠ "sequential" ∧ s ≠ "preemptive") :
    (LoadingPolicy.ofConfig conf).mode.value = LoadingMode.MODE_STANDARD ∧
    (conf.loading_threads = none →
       (LoadingPolicy.ofConfig conf).numLoadingThreads.value = 4) ∧
    (conf.loading_threads_per_logical_processor = none →
     conf.loading_threads_per_core = none →
       (LoadingPolicy.ofConfig conf).numLoadingThreadsPerCore.value = 4) ∧
    (conf.compile_threads = none →
       (LoadingPolicy.ofConfig conf).numCompileThreads.value = 2) ∧
    (conf.compile_threads_per_core = none →
       (LoadingPolicy.ofConfig conf).numCompileThreadsPerCore.value = 1/2) := by
  obtain ⟨cm, c1, c2, c3, c4, c5⟩ := conf
  cases cm with
  | none =>
    cases c1 <;> cases c2 <;> cases c3 <;> cases c4 <;> cases c5 <;>
      simp [LoadingPolicy.ofConfig, LoadingPolicy.fromConfig, LoadingPolicy.defaults]
  | some s =>
    obtain ⟨h1, h2, h3⟩ := hmode s rfl
    cases c1 <;> cases c2 <;> cases c3 <;> cases c4 <;> cases c5 <;>
      simp [LoadingPolicy.ofConfig, LoadingPolicy.fromConfig, LoadingPolicy.defaults,
        h1, h2, h3]

/-- Witness for C9: a configuration with unknown mode string "fast" and no
other properties yields the default mode and all default counts. -/
theorem loadingPolicy_fromConfig_defaults_witness :
    (∀ s, (⟨some "fast", none, none, none, none, none⟩ : Config).mode = some s →
        s ≠ "standard" ∧ s ≠ "sequential" ∧ s ≠ "preemptive") ∧
    (LoadingPolicy.ofConfig ⟨some "fast", none, none, none, none, none⟩).mode.value
      = LoadingMode.MODE_STANDARD :=
  ⟨by simp, (loadingPolicy_fromConfig_defaults ⟨some "fast", none, none, none, none, none⟩
     (by simp)).1⟩

/-- C10: round-tripping a `LoadingPolicy` through its configuration
serialization (`fromConfig` applied, from the constructor defaults, to the
`Config` emitted by `getConfig`) preserves the mode and all four thread
counts. -/
theorem loadingPolicy_config_roundtrip (p : LoadingPolicy) (h : p.wellFormed) :
    (LoadingPolicy.ofConfig p.getConfig).mode.value = p.mode.value ∧
    (LoadingPolicy.ofConfig p.getConfig).numLoadingThreads.value
      = p.numLoadingThreads.value ∧
    (LoadingPolicy.ofConfig p.getConfig).numLoadingThreadsPerCore.value
      = p.numLoadingThreadsPerCore.value ∧
    (LoadingPolicy.ofConfig p.getConfig).numCompileThreads.value
      = p.numCompileThreads.value ∧
    (LoadingPolicy.ofConfig p.getConfig).numCompileThreadsPerCore.value
      = p.numCompileThreadsPerCore.value := by
  obtain ⟨⟨mv, ms⟩, ⟨av, sa⟩, ⟨bv, sb⟩, ⟨cv, sc⟩, ⟨dv, sd⟩⟩ := p
  obtain ⟨h1, h2, h3, h4, h5⟩ := h
  simp only at h1 h2 h3 h4 h5
  cases ms with
  | false =>
    replace h1 := h1 rfl
    subst h1
    cases sa <;> cases sb <;> cases sc <;> cases sd <;>
      simp_all [LoadingPolicy.ofConfig, LoadingPolicy.fromConfig,
        LoadingPolicy.getConfig, LoadingPolicy.defaults, Config.empty]
  | true =>
    cases mv <;> cases sa <;> cases sb <;> cases sc <;> cases sd <;>
      simp_all [LoadingPolicy.ofConfig, LoadingPolicy.fromConfig,
        LoadingPolicy.getConfig, LoadingPolicy.defaults, Config.empty]

/-- Witness for C10: a policy with sequential mode and 7 loading threads set
(all other fields set to their defaults) survives the round trip. -/
theorem loadingPolicy_config_roundtrip_witness :
    (⟨⟨LoadingMode.MODE_SEQUENTIAL, true⟩, ⟨7, true⟩, ⟨4, true⟩, ⟨2, true⟩, ⟨4, true⟩⟩ :
        LoadingPolicy).wellFormed ∧
    (LoadingPolicy.ofConfig
        (⟨⟨LoadingMode.MODE_SEQUENTIAL, true⟩, ⟨7, true⟩, ⟨4, true⟩, ⟨2, true⟩, ⟨4, true⟩⟩ :
          LoadingPolicy).getConfig).mode.value
      = (⟨⟨LoadingMode.MODE_SEQUENTIAL, true⟩, ⟨7, true⟩, ⟨4, true⟩, ⟨2, true⟩, ⟨4, true⟩⟩ :
          LoadingPolicy).mode.value :=
  ⟨by simp [LoadingPolicy.wellFormed],
   (loadingPolicy_config_roundtrip
      ⟨⟨LoadingMode.MODE_SEQUENTIAL, true⟩, ⟨7, true⟩, ⟨4, true⟩, ⟨2, true⟩, ⟨4, true⟩⟩
      (by simp [LoadingPolicy.wellFormed])).1⟩

/-- Counterexample to C2 as stated: with a budget of 8 loading threads, no
elevation layer, and imagery weights [1, 20] (both nonzero), the service for
the weight-1 layer is resized to `(int)osg::round(8 * 1/21) = 0` threads —
there is no floor of 1 for nonzero-weight layers, neither in the thread-count
computation nor at the registry level. -/
theorem updateTaskServiceThreads_floor_counterexample :
    (updateTaskServiceThreads 8 [] [1, 20]).2 = [0, 8] ∧
    ¬ (∀ t ∈ (updateTaskServiceThreads 8 [] [(1:ℚ), 20]).2, 1 ≤ t) ∧
    (List.lookup 1 (applyRebalance [] 8 [] [(1, 1), (2, 20)])).map
        TaskService.numThreads = some 0 := by
  refine ⟨?_, ?_, ?_⟩
  · norm_num [updateTaskServiceThreads, elevationWeightOf, osgRound]
  · norm_num [updateTaskServiceThreads, elevationWeightOf, osgRound]
  · norm_num [applyRebalance, getImageryTaskService, getTaskService, createTaskService,
      mapSetNumThreads, TaskService.setNumThreads, elevationWeightOf, osgRound,
      lookup_cons_eq]

/-- C2 (amended): rebalancing resizes each service to
`(int)osg::round(numLoadingThreads * weight / totalWeight)` with no floor
(a nonzero-weight layer may be assigned 0 threads; the elevation service is
resized only when the elevation weight is positive).  With imagery weights
[1, 3], no elevation layer, and a budget of 8 threads the two imagery
services get 2 and 6 threads, and in general the sum of assigned thread
counts never exceeds the budget by more than half a thread per service. -/
theorem updateTaskServiceThreads_rebalance (B : Int)
    (elevWeights imageWeights : List ℚ)
    (hB : 0 ≤ B) (himg : ∀ w ∈ imageWeights, 0 ≤ w) :
    updateTaskServiceThreads 8 [] [1, 3] = (none, [2, 6]) ∧
    (List.lookup 1 (applyRebalance [] 8 [] [(1, 1), (2, 3)])).map
        TaskService.numThreads = some 2 ∧
    (List.lookup 2 (applyRebalance [] 8 [] [(1, 1), (2, 3)])).map
        TaskService.numThreads = some 6 ∧
    (((updateTaskServiceThreads B elevWeights imageWeights).2.sum : Int) : ℚ)
        + (((updateTaskServiceThreads B elevWeights imageWeights).1.getD 0 : Int) : ℚ)
      ≤ (B : ℚ) + (imageWeights.length + 1) / 2 := by
  refine ⟨?_, ?_, ?_, ?_⟩
  · norm_num [updateTaskServiceThreads, elevationWeightOf, osgRound]
  · norm_num [applyRebalance, getImageryTaskService, getTaskService, createTaskService,
      mapSetNumThreads, TaskService.setNumThreads, elevationWeightOf, osgRound,
      lookup_cons_eq]
  · norm_num [applyRebalance, getImageryTaskService, getTaskService, createTaskService,
      mapSetNumThreads, TaskService.setNumThreads, elevationWeightOf, osgRound,
      lookup_cons_eq]
  · have hBq : (0:ℚ) ≤ (B : ℚ) := by exact_mod_cast hB
    have hew : 0 ≤ elevationWeightOf elevWeights := elevationWeightOf_nonneg _
    have hS : 0 ≤ imageWeights.sum := List.sum_nonneg himg
    simp only [updateTaskServiceThreads, foldl_add_eq_sum, zero_add]
    set ew := elevationWeightOf elevWeights with hew_def
    set W := ew + imageWeights.sum with hW_def
    by_cases hW : W = 0
    · have hmap : imageWeights.map (fun w => osgRound ((B:ℚ) * (w / W)))
          = imageWeights.map (fun _ => (0:Int)) := by
        apply List.map_congr_left
        intro w hw
        rw [hW]
        norm_num [osgRound]
      have hewz : ¬ (ew > 0) := by
        intro hc
        have : (0:ℚ) < W := by linarith
        exact absurd hW this.ne'
      rw [hmap, if_neg hewz]
      simp
      positivity
    · have hWpos : 0 < W := lt_of_le_of_ne (by linarith) (Ne.symm hW)
      have hxs : ∀ x ∈ imageWeights.map (fun w => (B:ℚ) * (w / W)), 0 ≤ x := by
        intro x hx
        obtain ⟨w, hw, rfl⟩ := List.mem_map.mp hx
        exact mul_nonneg hBq (div_nonneg (himg w hw) hWpos.le)
      have h1 := sum_osgRound_le (imageWeights.map (fun w => (B:ℚ) * (w / W))) hxs
      rw [List.map_map, List.length_map] at h1
      have hsum_eq : (imageWeights.map (fun w => (B:ℚ) * (w / W))).sum
          = (B:ℚ)/W * imageWeights.sum := by
        have hfe : (fun w => (B:ℚ) * (w / W)) = (fun w => (B:ℚ)/W * w) := by
          funext w
          ring
        rw [hfe]
        simpa using List.sum_map_mul_left imageWeights (id : ℚ → ℚ) ((B:ℚ)/W)
      rw [hsum_eq] at h1
      have helev :
          (((if ew > 0 then some (osgRound ((B:ℚ) * (ew / W))) else none).getD 0 : Int) : ℚ)
            ≤ (B:ℚ)/W * ew + 1/2 := by
        split
        · simp only [Option.getD_some]
          have harg : (0:ℚ) ≤ (B:ℚ) * (ew / W) := mul_nonneg hBq (div_nonneg hew hWpos.le)
          calc ((osgRound ((B:ℚ) * (ew / W)) : Int) : ℚ)
              ≤ (B:ℚ) * (ew / W) + 1/2 := osgRound_le_half _ harg
            _ = (B:ℚ)/W * ew + 1/2 := by ring
        · simp only [Option.getD_none, Int.cast_zero]
          have : (0:ℚ) ≤ (B:ℚ)/W * ew := mul_nonneg (div_nonneg hBq hWpos.le) hew
          linarith
      have hBW : (B:ℚ)/W * imageWeights.sum + (B:ℚ)/W * ew = (B:ℚ) := by
        have hfactor : (B:ℚ)/W * imageWeights.sum + (B:ℚ)/W * ew = (B:ℚ)/W * W := by
          rw [hW_def]
          ring
        rw [hfactor]
        field_simp
      have hcomp : (fun w => osgRound ((B:ℚ) * (w / W)))
          = (osgRound ∘ fun w => (B:ℚ) * (w / W)) := rfl
      rw [hcomp]
      linarith

/-- Witness for C2 (amended) at budget 8, no elevation layers, imagery
weights [1, 3]. -/
theorem updateTaskServiceThreads_rebalance_witness :
    (0 ≤ (8:Int) ∧ ∀ w ∈ [(1:ℚ), 3], 0 ≤ w) ∧
    updateTaskServiceThreads 8 [] [1, 3] = (none, [2, 6]) :=
  ⟨⟨by decide, by decide⟩,
   (updateTaskServiceThreads_rebalance 8 [] [1, 3] (by decide) (by decide)).1⟩

/-- C3: in one drain pass over the shutdown queue, exactly the tiles whose
`cancelRequests()` returns true are dropped from the queue and erased (by
key) from the live tile table — and, exactly when quick release is enabled
and the callback installed, appended in queue order to the GPU release
queue; tiles whose `cancelRequests()` returns false stay in the queue and
in the table for the next pass. -/
theorem drainShutdown_spec (qr ci : Bool) (sq tiles rel : List CustomTile) :
    drainShutdown qr ci sq tiles rel =
      (sq.filter (fun t => !t.cancelOk),
       tiles.filter (fun u => !(sq.any (fun t => t.cancelOk && decide (t.key = u.key)))),
       rel ++ (if qr && ci then sq.filter (fun t => t.cancelOk) else [])) := by
  induction sq generalizing tiles rel with
  | nil => simp [drainShutdown]
  | cons t rest ih =>
    by_cases h : t.cancelOk = true
    · rw [show drainShutdown qr ci (t :: rest) tiles rel
          = drainShutdown qr ci rest (tiles.filter (fun u => !(decide (u.key = t.key))))
              (if qr && ci then rel ++ [t] else rel) by simp [drainShutdown, h]]
      rw [ih]
      refine Prod.ext ?_ (Prod.ext ?_ ?_)
      · simp [List.filter_cons, h]
      · simp only [List.filter_filter]
        apply List.filter_congr
        intro u hu
        simp [List.any_cons, h, Bool.not_or, eq_comm, Bool.and_comm]
      · simp only [List.filter_cons, h, Bool.not_true]
        cases hb : qr && ci <;> simp
    · have h' : t.cancelOk = false := by simpa using h
      simp only [drainShutdown, h', Bool.false_eq_true, if_false, ih]
      refine Prod.ext ?_ (Prod.ext ?_ ?_)
      · simp [List.filter_cons, h']
      · simp [List.any_cons, h']
      · simp [List.filter_cons, h']

/-- C4 (amended): one update pass is exactly the composition, in order, of
callback installation, retirement-candidate marking (phase 1), the
shutdown-queue drain (phase 2), frame-stamp propagation (phase 3) and
neighbor-family refresh (phase 4); and no tile marked as a retirement
candidate in phase 1 of this pass is neighbor-refreshed in phase 4.  (A tile
that entered the shutdown queue in an *earlier* pass and is removed in phase
2 can still be refreshed in phase 4 — see the counterexample.) -/
theorem updateTraversal_phase_order (mi : MapInfoModel) (cam : Bool)
    (st : TerrainState) (stamp : Int) :
    (updateTraversal mi cam st stamp =
      (stampPhase
         (drainShutdownPhase (markRetirementCandidates (installCallbackPhase cam st)).1)
         stamp,
       refreshPhase mi
         (stampPhase
            (drainShutdownPhase (markRetirementCandidates (installCallbackPhase cam st)).1)
            stamp)
         (markRetirementCandidates (installCallbackPhase cam st)).2)) ∧
    (∀ t ∈ st.tiles.filter isDeadTile,
       t ∉ (updateTraversal mi cam st stamp).2.map Prod.fst) := by
  constructor
  · rfl
  · intro t ht hmem
    have hlive : (updateTraversal mi cam st stamp).2.map Prod.fst
        = st.tiles.filter (fun u => !isDeadTile u) := by
      simp [updateTraversal, List.map_map, Function.comp_def]
    rw [hlive] at hmem
    simp only [List.mem_filter] at ht hmem
    rw [ht.2] at hmem
    simp at hmem

/-- Witness for C4 (amended): a tile with reference count 1 that has been
traversed is marked in phase 1 and is not refreshed in phase 4. -/
theorem updateTraversal_phase_order_witness :
    ((⟨⟨0, 0, 0⟩, 0, [], 1, true, true, false⟩ : CustomTile) ∈
       ([⟨⟨0, 0, 0⟩, 0, [], 1, true, true, false⟩] : List CustomTile).filter isDeadTile) ∧
    (⟨⟨0, 0, 0⟩, 0, [], 1, true, true, false⟩ : CustomTile) ∉
      (updateTraversal ⟨false, fun _ => 1, fun _ => 1⟩ false
        ⟨[⟨⟨0, 0, 0⟩, 0, [], 1, true, true, false⟩], [], [], false, false, []⟩ 0).2.map
        Prod.fst :=
  ⟨by decide,
   (updateTraversal_phase_order ⟨false, fun _ => 1, fun _ => 1⟩ false
      ⟨[⟨⟨0, 0, 0⟩, 0, [], 1, true, true, false⟩], [], [], false, false, []⟩ 0).2
     ⟨⟨0, 0, 0⟩, 0, [], 1, true, true, false⟩ (by decide)⟩

/-- Counterexample to C4 as stated: a tile that entered the shutdown queue in
an earlier pass (so its reference count is no longer 1 — here 2, held by the
table and the queue) is still part of the phase-1 survivor snapshot; when its
`cancelRequests()` succeeds this pass, phase 2 removes it from the live
table, yet phase 4 still neighbor-refreshes it — a live tile is refreshed
after its removal in phase 2. -/
theorem updateTraversal_refresh_after_removal_counterexample :
    ((updateTraversal ⟨false, fun _ => 1, fun _ => 1⟩ false
        ⟨[⟨⟨0, 0, 0⟩, 0, [], 2, true, true, false⟩],
         [⟨⟨0, 0, 0⟩, 0, [], 2, true, true, false⟩], [], false, false, []⟩ 0).1.tiles
      = []) ∧
    ((⟨⟨0, 0, 0⟩, 0, [], 2, true, true, false⟩ : CustomTile) ∈
      ((updateTraversal ⟨false, fun _ => 1, fun _ => 1⟩ false
        ⟨[⟨⟨0, 0, 0⟩, 0, [], 2, true, true, false⟩],
         [⟨⟨0, 0, 0⟩, 0, [], 2, true, true, false⟩], [], false, false, []⟩ 0).2.map
        Prod.fst)) := by
  constructor
  · rfl
  · decide

end OsgEarth
